import Mathlib

/-!
Verification development for the streaming fixed-income risk engine
(risk_engine service: curve builder, risk calculator, stream coordinator,
result publisher, portfolio loader).

The Python source is shallowly embedded: machine floats are modelled as
rationals (every Python float is a rational, and every operation the
claims exercise — snapshot, add, subtract, write-back — is exact on the
stored values), mutable state is threaded explicitly, and exceptions are
modelled as an explicit error component.  The QuantLib pricing kernel is
an external library, so instrument pricing is abstracted as an arbitrary
function from the quote vector to a priced value or an error; every
theorem quantifies over that function, covering every behaviour the
library can exhibit, including raising.
-/

deriving instance DecidableEq for Except

/-- The recognized curve tenors: keys of YieldCurveBuilder.TENORS
(curves.py lines 24-36). -/
inductive Tenor where
  | t1M | t3M | t6M | t1Y | t2Y | t3Y | t5Y | t7Y | t10Y | t20Y | t30Y
deriving DecidableEq, Repr

/-- The tenors in dictionary (insertion) order, as iterated by
`for tenor in YieldCurveBuilder.TENORS` / `for tenor in self.TENORS`. -/
def Tenor.all : List Tenor :=
  [.t1M, .t3M, .t6M, .t1Y, .t2Y, .t3Y, .t5Y, .t7Y, .t10Y, .t20Y, .t30Y]

/-- Tenor string recognition: membership of a rates key in
YieldCurveBuilder.TENORS (the `if tenor in self._quotes` test,
curves.py line 56). -/
def tenorOfString (s : String) : Option Tenor :=
  if s = "1M" then some .t1M
  else if s = "3M" then some .t3M
  else if s = "6M" then some .t6M
  else if s = "1Y" then some .t1Y
  else if s = "2Y" then some .t2Y
  else if s = "3Y" then some .t3Y
  else if s = "5Y" then some .t5Y
  else if s = "7Y" then some .t7Y
  else if s = "10Y" then some .t10Y
  else if s = "20Y" then some .t20Y
  else if s = "30Y" then some .t30Y
  else none

/-- The quote vector: current value of the ql.SimpleQuote held for each
recognized tenor (YieldCurveBuilder._quotes).  Every recognized tenor
always has a quote: __init__ populates all of them (curves.py lines
44-46), so get_quote returns None only for unrecognized tenors. -/
abbrev Quotes : Type := Tenor → ℚ

/-- One `quote.setValue(v)` call on the quote of tenor `t`. -/
def setQuote (q : Quotes) (t : Tenor) (v : ℚ) : Quotes :=
  fun s => if s = t then v else q s

/-- A `for tenor in ts: get_quote(tenor).setValue(f(tenor))` loop. -/
def setEach (q : Quotes) (ts : List Tenor) (f : Tenor → ℚ) : Quotes :=
  match ts with
  | [] => q
  | t :: rest => setEach (setQuote q t (f t)) rest f

/-- The key-rate tenors RiskCalculator.KRD_TENORS (risk.py line 26). -/
def krdTenors : List Tenor := [.t2Y, .t5Y, .t10Y, .t30Y]

/-- Abstract per-call pricer: RiskCalculator._price_instrument for a
fixed instrument, as a function of the current quote vector only.  The
curve handle, evaluation date and instrument are all constant for the
duration of one `calculate` call (nothing inside `calculate` rebuilds
the curve or moves the date), so the priced value can only vary with
the quotes; `Except.error` models any exception the pricing raises
(curve unbuilt ValueError, QuantLib errors). -/
abbrev Pricer : Type := Quotes → Except Unit ℚ

/-- The risk metrics record produced by RiskCalculator.calculate
(risk.py lines 13-19); krd is the dict built by _calculate_krd,
in insertion order. -/
structure RiskMetricsM where
  npv : ℚ
  dv01 : ℚ
  krd : List (Tenor × ℚ)
deriving DecidableEq, Repr

/-- RiskCalculator._calculate_dv01 (risk.py lines 79-122): snapshot
every recognized tenor quote (all tenors have quotes), set each to
original plus bump, price, set each to original minus bump, price,
return (npv_down - npv_up) / 2; the `finally` block restores every
snapshotted value on every exit path, including when pricing raises.
Returns the result (or the propagated error) together with the quote
vector as left by the call. -/
def calculate_dv01 (price : Pricer) (bump : ℚ) (q0 : Quotes) :
    Except Unit ℚ × Quotes :=
  let orig : Tenor → ℚ := fun t => q0 t
  let q1 := setEach q0 Tenor.all (fun t => orig t + bump)
  let body : Except Unit ℚ × Quotes :=
    match price q1 with
    | .error e => (.error e, q1)
    | .ok npvUp =>
      let q2 := setEach q1 Tenor.all (fun t => orig t - bump)
      match price q2 with
      | .error e => (.error e, q2)
      | .ok npvDown => (.ok ((npvDown - npvUp) / 2), q2)
  (body.1, setEach body.2 Tenor.all orig)

/-- One iteration of the KRD loop body of RiskCalculator._calculate_krd
(risk.py lines 136-158) for a single tenor: snapshot that tenor only,
bump up, price, bump down, price, compute (npv_down - npv_up) / 2; the
per-tenor `finally` restores the snapshotted value on every exit path. -/
def krd_step (price : Pricer) (bump : ℚ) (t : Tenor) (q : Quotes) :
    Except Unit ℚ × Quotes :=
  let orig := q t
  let q1 := setQuote q t (orig + bump)
  let body : Except Unit ℚ × Quotes :=
    match price q1 with
    | .error e => (.error e, q1)
    | .ok npvUp =>
      let q2 := setQuote q1 t (orig - bump)
      match price q2 with
      | .error e => (.error e, q2)
      | .ok npvDown => (.ok ((npvDown - npvUp) / 2), q2)
  (body.1, setQuote body.2 t orig)

/-- The `for tenor in self.KRD_TENORS` loop of _calculate_krd: on a
pricing error the per-tenor finally runs and the exception propagates
out of the loop (earlier tenors were already restored after their own
measurement). -/
def calculate_krd_loop (price : Pricer) (bump : ℚ) :
    List Tenor → Quotes → Except Unit (List (Tenor × ℚ)) × Quotes
  | [], q => (.ok [], q)
  | t :: ts, q =>
    let step := krd_step price bump t q
    match step.1 with
    | .error e => (.error e, step.2)
    | .ok v =>
      let tail := calculate_krd_loop price bump ts step.2
      match tail.1 with
      | .error e => (.error e, tail.2)
      | .ok rest => (.ok ((t, v) :: rest), tail.2)

/-- RiskCalculator._calculate_krd (risk.py lines 124-160).  Every KRD
tenor has a quote (see Quotes), so the `quote is None` branch that
records 0.0 is unreachable. -/
def calculate_krd (price : Pricer) (bump : ℚ) (q : Quotes) :
    Except Unit (List (Tenor × ℚ)) × Quotes :=
  calculate_krd_loop price bump krdTenors q

/-- RiskCalculator.calculate (risk.py lines 38-64): base NPV (no quote
mutation), then _calculate_dv01, then _calculate_krd; any exception
propagates to the caller with whatever quote state the inner finallys
left. -/
def calculate (price : Pricer) (bump : ℚ) (q : Quotes) :
    Except Unit RiskMetricsM × Quotes :=
  match price q with
  | .error e => (.error e, q)
  | .ok baseNpv =>
    let rdv := calculate_dv01 price bump q
    match rdv.1 with
    | .error e => (.error e, rdv.2)
    | .ok dv01 =>
      let rk := calculate_krd price bump rdv.2
      match rk.1 with
      | .error e => (.error e, rk.2)
      | .ok krd => (.ok ⟨baseNpv, dv01, krd⟩, rk.2)

/-- Default bump size: Settings.bump_size = 0.0001 (config.py line 27),
also the default of RiskCalculator.__init__ (risk.py line 28). -/
def bump_size_default : ℚ := 1 / 10000

/-! Curve builder state and update_rates (curves.py) -/

/-- A JSON value as found in the `rates` map of a decoded tick.
ql.SimpleQuote.setValue accepts only a number; any other value makes
the SWIG double typemap raise a TypeError. -/
inductive JsonVal where
  | num (q : ℚ)
  | str (s : String)
  | null
deriving DecidableEq, Repr

/-- Whether setValue accepts the value. -/
def JsonVal.isNum : JsonVal → Bool
  | .num _ => true
  | _ => false

/-- A decoded `rates` object, in JSON member order (Python dicts
preserve insertion order, and the update loop iterates in that order). -/
abbrev RatesList : Type := List (String × JsonVal)

/-- Mutable state of YieldCurveBuilder: the quote vector, whether
`_curve` has been set (curves.py line 41 / 120), and `_curve_date`
(line 42 / 63).  The bootstrapped curve object itself lives in
QuantLib and reacts to the quotes; its identity is captured by
`curveBuilt` plus the quote vector. -/
structure BuilderState where
  quotes : Quotes
  curveBuilt : Bool
  curveDate : Option String

/-- The builder right after __init__ (curves.py lines 38-46): every
recognized tenor quote is 0.0, no curve, no date. -/
def initBuilder : BuilderState :=
  { quotes := fun _ => 0, curveBuilt := false, curveDate := none }

/-- The `for tenor, rate in rates.items()` loop of update_rates
(curves.py lines 55-57): unrecognized tenors are skipped by the
membership test; recognized tenors get setValue(rate), which raises a
TypeError on a non-numeric value — the loop then aborts with any
earlier writes already applied.  Returns the quote vector as left by
the loop together with a raised flag. -/
def apply_rates (q : Quotes) : RatesList → Quotes × Bool
  | [] => (q, false)
  | (k, v) :: rest =>
    match tenorOfString k with
    | none => apply_rates q rest
    | some t =>
      match v with
      | .num x => apply_rates (setQuote q t x) rest
      | _ => (q, true)

/-- YieldCurveBuilder.update_rates (curves.py lines 48-69): run the
quote loop; if it raised, the exception propagates with the date and
curve untouched.  Otherwise set the evaluation date and, when no curve
exists yet, build it: _build_curve always succeeds in building, since
all eleven tenors always have quotes, so the helper list is never
empty (curves.py lines 44-46 and 77-110).  Date-string parsing is not
modelled; every claim uses a well-formed YYYY-MM-DD date.  Returns the
new state and a raised flag. -/
def update_rates (st : BuilderState) (rates : RatesList) (curve_date : String) :
    BuilderState × Bool :=
  let res := apply_rates st.quotes rates
  if res.2 then ({ st with quotes := res.1 }, true)
  else ({ quotes := res.1, curveBuilt := true, curveDate := some curve_date }, false)

/-- Modelled from the spec (section 6, bus topic contract): the claimed
skip semantics of update_rates — entries with unrecognized tenors are
ignored and entries with non-numeric or empty values are skipped, the
previous quote persisting, with the call always completing.  Used only
to compare the spec reading of claim C4 with the source behaviour. -/
def update_rates_spec (st : BuilderState) (rates : RatesList) (curve_date : String) :
    BuilderState :=
  let q := rates.foldl (fun acc kv =>
    match tenorOfString kv.1, kv.2 with
    | some t, .num x => setQuote acc t x
    | _, _ => acc) st.quotes
  { quotes := q, curveBuilt := true, curveDate := some curve_date }

/-! Result publisher (redis_writer.py) -/

/-- A redis hash: field name to string value (a field either holds a
string or is absent). -/
abbrev Hash : Type := String → Option String

/-- hset of one field (set or overwrite). -/
def hsetField (h : Hash) (k v : String) : Hash :=
  fun k' => if k' = k then some v else h k'

/-- hset with a field mapping: upsert each field in order. -/
def hsetAll (h : Hash) (fields : List (String × String)) : Hash :=
  fields.foldl (fun acc p => hsetField acc p.1 p.2) h

/-- Python str() of a decoded JSON rate value, as used by
write_yield_curve when building the rate_ fields.  Exact decimal
rendering of floats is abstracted by the rational literal; only
equality of the timestamp field matters to the claims. -/
def jsonValStr : JsonVal → String
  | .num q => toString q
  | .str s => s
  | .null => "None"

/-- The shared key-value store as seen by the risk worker: the
yield_curve:latest hash, the yield_curve:history sorted set (member,
score), and the set of trade risk keys written by write_risk. -/
structure Store where
  yieldCurveLatest : Hash
  history : List (String × Int)
  tradeRiskIds : List String

/-- An empty store. -/
def initStore : Store :=
  { yieldCurveLatest := fun _ => none, history := [], tradeRiskIds := [] }

/-- zadd of one member (overwrite score or append). -/
def zadd (zs : List (String × Int)) (member : String) (score : Int) :
    List (String × Int) :=
  if zs.any (fun p => p.1 = member) then
    zs.map (fun p => if p.1 = member then (member, score) else p)
  else zs ++ [(member, score)]

/-- RedisWriter.write_yield_curve (redis_writer.py lines 126-149):
hset yield_curve:latest with one rate_ field per provided tenor
(lowercased) plus timestamp and updated_at; zadd the JSON of the rates
onto yield_curve:history scored by the tick timestamp; prune history
entries older than one hour before `now` (wall-clock ms). -/
def write_yield_curve (store : Store) (rates : RatesList)
    (curve_timestamp : Int) (now : Int) : Store :=
  let rateFields := rates.map (fun kv => ("rate_" ++ kv.1.toLower, jsonValStr kv.2))
  let fields := rateFields ++ [("timestamp", toString curve_timestamp),
                               ("updated_at", toString now)]
  let latest := hsetAll store.yieldCurveLatest fields
  let curveJson := "rates-json:" ++ String.intercalate (",") (rates.map (fun kv => kv.1))
  let hist := zadd store.history curveJson curve_timestamp
  let hourAgo := now - 3600000
  let hist := hist.filter (fun p => hourAgo < p.2)
  { store with yieldCurveLatest := latest, history := hist }

/-- RedisWriter.write_risk (redis_writer.py lines 37-74), reduced to
the store effect the coordinator claims mention: the trade risk hash
key for the instrument is (over)written. -/
def write_risk (store : Store) (instrumentId : String) : Store :=
  if store.tradeRiskIds.any (fun i => i = instrumentId) then store
  else { store with tradeRiskIds := store.tradeRiskIds ++ [instrumentId] }

/-! Stream coordinator (main.py process_market_update and the
consume loop of kafka_consumer.py) -/

/-- A well-formed decoded tick message (timestamp, curve_date, rates
fields present). -/
structure TickMsg where
  timestamp : Int
  curveDate : String
  rates : RatesList
deriving DecidableEq, Repr

/-- Per-instrument calculator outcome for the current tick, abstracting
risk_calculator.calculate on a fixed curve state: ok or raised. -/
abbrev CalcOutcome : Type := String → Except Unit Unit

/-- Result of running the body of the main for-loop on one decoded
message, together with the commit the consumer generator performs when
the loop asks for the next message. -/
structure LoopStepResult where
  builder : BuilderState
  store : Store
  writeRiskCalls : List String
  tickFailed : Bool
  committed : Bool

/-- process_market_update (main.py lines 34-73): update_rates — if it
raises, the exception propagates to main with no further work done;
otherwise write_yield_curve, then for each instrument try calculate
and write_risk, skipping (only) instruments whose calculation raised
(lines 63-71). -/
def process_market_update (calcF : CalcOutcome) (portfolio : List String)
    (msg : TickMsg) (st : BuilderState) (store : Store) (now : Int) :
    BuilderState × Store × List String × Bool :=
  let upd := update_rates st msg.rates msg.curveDate
  if upd.2 then (upd.1, store, [], true)
  else
    let store1 := write_yield_curve store msg.rates msg.timestamp now
    let written := portfolio.filter (fun i => (calcF i).isOk)
    let store2 := written.foldl (fun s i => write_risk s i) store1
    (upd.1, store2, written, false)

/-- One pass of the main consumption loop (main.py lines 168-201) for a
decoded message: if shutdown was requested the loop breaks before
processing, the generator is closed at its yield point and the commit
after the yield never runs.  Otherwise the body runs
process_market_update inside `try ... except Exception: continue`
(lines 173-201), so the body always completes; the for statement then
resumes the consumer generator, which executes
`self.consumer.commit(asynchronous=False)` (kafka_consumer.py line 70)
— the offset is committed whether or not the tick processing raised. -/
def main_loop_step (shutdown : Bool) (calcF : CalcOutcome)
    (portfolio : List String) (msg : TickMsg) (st : BuilderState)
    (store : Store) (now : Int) : LoopStepResult :=
  if shutdown then
    { builder := st, store := store, writeRiskCalls := [],
      tickFailed := false, committed := false }
  else
    let r := process_market_update calcF portfolio msg st store now
    { builder := r.1, store := r.2.1, writeRiskCalls := r.2.2.1,
      tickFailed := r.2.2.2, committed := true }

/-- One polled item of MarketDataConsumer.consume (kafka_consumer.py
lines 51-75): poll returning None, a partition-EOF error, a fatal
error (KafkaException raised, ending consumption), or a message whose
body either decodes to a tick or fails JSON decoding. -/
inductive PollItem where
  | quiet
  | partitionEnd
  | fatal
  | message (body : Option TickMsg)
deriving DecidableEq, Repr

/-- The consume loop run over a finite poll trace with no shutdown
signal: None and partition-EOF polls are skipped, a fatal bus error
raises out of the loop, a message with an undecodable body is
committed and dropped (lines 72-75), and a decoded message is yielded
to `proc` (the main loop body, which catches its own exceptions) and
then committed.  Each processed message is recorded as (body result,
committed). -/
def consume_run (proc : TickMsg → Nat) : List PollItem → List (Option Nat × Bool)
  | [] => []
  | .quiet :: rest => consume_run proc rest
  | .partitionEnd :: rest => consume_run proc rest
  | .fatal :: _ => []
  | .message none :: rest => (none, true) :: consume_run proc rest
  | .message (some t) :: rest => (some (proc t), true) :: consume_run proc rest

/-! Instrument pricers (instruments.py) -/

/-- QuantLib payment frequencies used by parse_frequency. -/
inductive Frequency where
  | annual | semiannual | quarterly | monthly
deriving DecidableEq, Repr

/-- parse_frequency (instruments.py lines 42-50): dictionary lookup
with `freq_map.get(freq_str, ql.Semiannual)` — any string outside the
four keys yields ql.Semiannual, with no error raised. -/
def parse_frequency (s : String) : Frequency :=
  if s = "ANNUAL" then .annual
  else if s = "SEMI_ANNUAL" then .semiannual
  else if s = "QUARTERLY" then .quarterly
  else if s = "MONTHLY" then .monthly
  else .semiannual

/-- QuantLib day-count conventions used by parse_day_count. -/
inductive DayCount where
  | actActBond | act360 | act365Fixed | thirty360Bond
deriving DecidableEq, Repr

/-- parse_day_count (instruments.py lines 53-61): dictionary lookup
with `dc_map.get(dc_str, ql.ActualActual(ql.ActualActual.Bond))` — any
string outside the four keys yields ACT/ACT Bond basis, with no error
raised. -/
def parse_day_count (s : String) : DayCount :=
  if s = "ACT_ACT" then .actActBond
  else if s = "ACT_360" then .act360
  else if s = "ACT_365" then .act365Fixed
  else if s = "30_360" then .thirty360Bond
  else .actActBond

/-- Bond fields consumed by BondPricer.price, with dates as QuantLib
serial numbers (to_ql_date is a bijection onto serials). -/
structure BondDataM where
  id : String
  isin : String
  notional : ℚ
  coupon_rate : ℚ
  maturity_date : Nat
  issue_date : Option Nat
  payment_frequency : String
  day_count_convention : String
deriving DecidableEq, Repr

/-- The schedule frequency BondPricer.price passes to ql.Schedule
(instruments.py line 91): parse_frequency of the stored string. -/
def bond_pricer_frequency (b : BondDataM) : Frequency :=
  parse_frequency b.payment_frequency

/-- The day counter BondPricer.price passes to ql.FixedRateBond
(instruments.py line 92): parse_day_count of the stored string. -/
def bond_pricer_day_count (b : BondDataM) : DayCount :=
  parse_day_count b.day_count_convention

/-- Swap fields consumed by SwapPricer.price, with dates as QuantLib
serial numbers. -/
structure SwapDataM where
  id : String
  notional : ℚ
  fixed_rate : ℚ
  trade_date : Nat
  maturity_date : Nat
  effective_date : Option Nat
  pay_receive : String
  payment_frequency : String
deriving DecidableEq, Repr

/-- The effective date SwapPricer.price uses (instruments.py line 152):
the given effective date when present, else
`to_ql_date(swap.trade_date) + 2` — QuantLib Date addition, which adds
two serial (calendar) days. -/
def swap_effective_date (s : SwapDataM) : Nat :=
  match s.effective_date with
  | some e => e
  | none => s.trade_date + 2

/-- QuantLib weekday of a date serial number: Sunday = 1 .. Saturday =
7, anchored so that serial 367 (1 January 1901, a Tuesday) maps to 3. -/
def qlWeekday (serial : Nat) : Nat :=
  if serial % 7 = 0 then 7 else serial % 7

/-- Whether the serial falls on a weekend. -/
def isWeekend (serial : Nat) : Bool :=
  qlWeekday serial = 1 || qlWeekday serial = 7

/-- Roll a serial forward to the next non-weekend day (weekends are at
most two consecutive days, so two steps suffice). -/
def roll_forward (serial : Nat) : Nat :=
  if isWeekend serial then
    (if isWeekend (serial + 1) then serial + 2 else serial + 1)
  else serial

/-- Modelled from the spec (section 3, Swap): the claimed default
effective date — trade date advanced by 2 business days.  The US
Government Bond calendar is modelled by its weekend rule; holidays are
omitted (none fall in the dates used by the counterexample).  Used
only to compare the spec reading of claim C7 with the source
behaviour. -/
def swap_effective_date_spec (s : SwapDataM) : Nat :=
  match s.effective_date with
  | some e => e
  | none => roll_forward (roll_forward (s.trade_date + 1) + 1)

/-! Worker startup (main.py main, lines 129-159) -/

/-- Outcome of the initialization block: either the process exits with
an exit code, or the worker reaches the consumption loop; in both
cases we record whether the Kafka consumer was ever constructed and
subscribed. -/
inductive InitResult where
  | exited (code : Nat) (consumerOpened : Bool)
  | running (consumerOpened : Bool)
deriving DecidableEq, Repr

/-- The init sequence of main (main.py lines 129-159): load_portfolio
(an exception is caught by `except Exception` and leads to
sys.exit(1)); on success, `if not portfolio: sys.exit(1)` — SystemExit
derives from BaseException, not Exception, so the surrounding handler
does not catch it and the process exits with code 1 before the curve
builder, Redis writer or Kafka consumer are created.  Otherwise the
Redis writer is constructed (its ping can fail, caught by the same
handler, exit 1) and only then is MarketDataConsumer constructed and
subscribed. -/
def main_init (loadResult : Except Unit (List String)) (redisOk : Bool) :
    InitResult :=
  match loadResult with
  | .error _ => .exited 1 false
  | .ok portfolio =>
    if portfolio.isEmpty then .exited 1 false
    else if redisOk then .running true
    else .exited 1 false

/-! Portfolio aggregation (main.py aggregate_portfolio, lines 76-108) -/

/-- A stored field value of a trade risk hash as the aggregator sees it
after hgetall: a string that either parses as a float or raises
ValueError in float(). -/
inductive RVal where
  | num (q : ℚ)
  | bad
deriving DecidableEq, Repr

/-- One trade risk record: field name to value, first match wins as in
a Python dict. -/
abbrev Record : Type := List (String × RVal)

/-- data.get(key) / key-in-data lookup. -/
def lookupField (data : Record) (k : String) : Option RVal :=
  match data with
  | [] => none
  | (k', v) :: rest => if k' = k then some v else lookupField rest k

/-- float(data.get(key, 0)): a missing field defaults to 0, a stored
string parses or raises ValueError. -/
def parseFieldOr0 (v : Option RVal) : Except Unit ℚ :=
  match v with
  | none => .ok 0
  | some (.num q) => .ok q
  | some .bad => .error ()

/-- The running aggregates dict (main.py lines 87-92); instrument_count
is fixed to len(trade_risks) up front; krd maps the four upper-case
tenor labels (all other keys are never read or written). -/
structure Aggregates where
  total_npv : ℚ
  total_dv01 : ℚ
  instrument_count : Nat
  krd : String → ℚ

/-- aggregates["krd"][key] += v. -/
def addKrd (agg : Aggregates) (key : String) (v : ℚ) : Aggregates :=
  { agg with krd := fun k => if k = key then agg.krd key + v else agg.krd k }

/-- The `for tenor in ["2y", "5y", "10y", "30y"]` loop (main.py lines
99-102): a krd field absent from the record is skipped; a present
field is parsed with float() and added under the upper-cased tenor; a
ValueError aborts the record, keeping the additions already applied. -/
def add_krd_loop (agg : Aggregates) (data : Record) : List String → Aggregates
  | [] => agg
  | t :: ts =>
    match lookupField data ("krd_" ++ t) with
    | none => add_krd_loop agg data ts
    | some (.num q) => add_krd_loop (addKrd agg t.toUpper q) data ts
    | some .bad => agg

/-- The body of the record loop of aggregate_portfolio (main.py lines
94-106): inside try/except, add float(npv) to total_npv, then
float(dv01) to total_dv01, then the krd fields; ValueError or
TypeError aborts the record (`continue`), keeping every addition made
before the failing field. -/
def process_record (agg : Aggregates) (data : Record) : Aggregates :=
  match parseFieldOr0 (lookupField data ("npv")) with
  | .error _ => agg
  | .ok n =>
    let agg1 := { agg with total_npv := agg.total_npv + n }
    match parseFieldOr0 (lookupField data ("dv01")) with
    | .error _ => agg1
    | .ok d =>
      let agg2 := { agg1 with total_dv01 := agg1.total_dv01 + d }
      add_krd_loop agg2 data ["2y", "5y", "10y", "30y"]

/-- The initial aggregates dict for a scan result (main.py lines
87-92). -/
def initAggregates (records : List (String × Record)) : Aggregates :=
  { total_npv := 0, total_dv01 := 0, instrument_count := records.length,
    krd := fun _ => 0 }

/-- aggregate_portfolio (main.py lines 76-108) over the scanned trade
risk records. -/
def aggregate_portfolio (records : List (String × Record)) : Aggregates :=
  records.foldl (fun agg r => process_record agg r.2) (initAggregates records)

/-! Concrete inputs used by the closed theorems -/

/-- Wall-clock now used when evaluating store writes. -/
def nowW : Int := 1769558400500

/-- A well-formed tick whose 2Y rate value is the JSON string "abc": a
message the bus contract of spec section 6 admits (non-numeric rate
values are to be skipped). -/
def c2wTick : TickMsg :=
  { timestamp := 1769558400000, curveDate := "2026-01-28",
    rates := [("2Y", JsonVal.str ("abc"))] }

/-- A calculator outcome where every instrument would succeed. -/
def c2wCalc : CalcOutcome := fun _ => Except.ok ()

/-- A pricer that succeeds everywhere and depends linearly on the 2Y
quote. -/
def c3wPrice : Pricer := fun q => Except.ok (100000 * q Tenor.t2Y + 7)

/-- A flat 4 percent quote vector. -/
def c3wQuotes : Quotes := fun _ => 1 / 25

/-- The metrics `calculate` produces for c3wPrice on c3wQuotes at the
default bump. -/
def c3wMetrics : RiskMetricsM :=
  { npv := 4007, dv01 := -10,
    krd := [(Tenor.t2Y, -10), (Tenor.t5Y, 0), (Tenor.t10Y, 0), (Tenor.t30Y, 0)] }

/-- A rates map with a non-numeric 2Y entry followed by a numeric 5Y
entry. -/
def c4wRates : RatesList := [("2Y", JsonVal.str ("abc")), ("5Y", JsonVal.num 42)]

/-- A clean prefix of rates entries: one unrecognized tenor, one
numeric recognized tenor. -/
def c4wPre : RatesList := [("XX", JsonVal.num 1), ("2Y", JsonVal.num (21 / 500))]

/-- Entries after the failing one. -/
def c4wRest : RatesList := [("10Y", JsonVal.num (21 / 500))]

/-- A well-formed decodable tick. -/
def c5wTick : TickMsg :=
  { timestamp := 1769558401000, curveDate := "2026-01-28", rates := [] }

/-- Poll items before the poison pill. -/
def c5wPre : List PollItem := [PollItem.quiet, PollItem.message (some c5wTick)]

/-- Poll items after the poison pill. -/
def c5wRest : List PollItem := [PollItem.partitionEnd, PollItem.message (some c5wTick)]

/-- A well-formed tick whose rates map is empty. -/
def c6wTick : TickMsg :=
  { timestamp := 1769558400000, curveDate := "2026-01-28", rates := [] }

/-- The S2-style swap with no effective date; trade date serial 46052
is 30 January 2026, a Friday (46052 mod 7 = 6), maturity serial 47878
is 30 January 2031. -/
def c7wSwap : SwapDataM :=
  { id := "swap-1", notional := 10000000, fixed_rate := 41 / 1000,
    trade_date := 46052, maturity_date := 47878, effective_date := none,
    pay_receive := "PAY", payment_frequency := "QUARTERLY" }

/-- A bond carrying an unrecognized payment frequency and day-count
convention. -/
def c9wBond : BondDataM :=
  { id := "bond-1", isin := "US912810TM25", notional := 1000000,
    coupon_rate := 3 / 80, maturity_date := 47099, issue_date := some 45245,
    payment_frequency := "WEEKLY", day_count_convention := "30E_360" }

/-- A stored record whose npv parses and whose dv01 does not. -/
def c10wData : Record := [("npv", RVal.num 5), ("dv01", RVal.bad)]

/-- The aggregates dict at the start of the record loop for a
single-record scan. -/
def c10wAgg : Aggregates := initAggregates [("trade-1", c10wData)]

/-! Helper lemmas -/

theorem mem_tenor_all (t : Tenor) : t ∈ Tenor.all := by
  cases t <;> simp [Tenor.all]

theorem setQuote_same (q : Quotes) (t : Tenor) (v : ℚ) :
    setQuote q t v t = v := by
  simp [setQuote]

theorem setQuote_other (q : Quotes) (t s : Tenor) (v : ℚ) (h : s ≠ t) :
    setQuote q t v s = q s := by
  simp [setQuote, h]

theorem setQuote_setQuote (q : Quotes) (t : Tenor) (a b : ℚ) :
    setQuote (setQuote q t a) t b = setQuote q t b := by
  funext s
  by_cases h : s = t <;> simp [setQuote, h]

theorem setQuote_self (q : Quotes) (t : Tenor) :
    setQuote q t (q t) = q := by
  funext s
  by_cases h : s = t <;> simp [setQuote, h]

theorem setEach_apply (ts : List Tenor) (q : Quotes) (f : Tenor → ℚ)
    (t : Tenor) : setEach q ts f t = if t ∈ ts then f t else q t := by
  induction ts generalizing q with
  | nil => simp [setEach]
  | cons t' rest ih =>
    rw [setEach, ih]
    by_cases hm : t ∈ rest
    · simp [hm, List.mem_cons]
    · by_cases he : t = t'
      · subst he
        simp [hm, setQuote]
      · simp [hm, he, List.mem_cons, setQuote_other q t' t _ he]

theorem setEach_all (q : Quotes) (f : Tenor → ℚ) :
    setEach q Tenor.all f = f := by
  funext t
  rw [setEach_apply, if_pos (mem_tenor_all t)]

theorem calculate_dv01_snd (price : Pricer) (bump : ℚ) (q : Quotes) :
    (calculate_dv01 price bump q).2 = q := by
  show setEach _ Tenor.all (fun t => q t) = q
  rw [setEach_all]

theorem krd_step_snd (price : Pricer) (bump : ℚ) (t : Tenor) (q : Quotes) :
    (krd_step price bump t q).2 = q := by
  simp only [krd_step]
  cases hp : price (setQuote q t (q t + bump)) with
  | error e => simp [setQuote_setQuote, setQuote_self]
  | ok npvUp =>
    cases hp2 : price (setQuote (setQuote q t (q t + bump)) t (q t - bump)) with
    | error e => simp [setQuote_setQuote, setQuote_self]
    | ok npvDown => simp [setQuote_setQuote, setQuote_self]

theorem calculate_krd_loop_snd (price : Pricer) (bump : ℚ) (ts : List Tenor)
    (q : Quotes) : (calculate_krd_loop price bump ts q).2 = q := by
  induction ts generalizing q with
  | nil => rfl
  | cons t rest ih =>
    rw [calculate_krd_loop]
    simp only [krd_step_snd]
    cases (krd_step price bump t q).1 with
    | error e => rfl
    | ok v =>
      simp only [ih]
      cases (calculate_krd_loop price bump rest q).1 with
      | error e => rfl
      | ok l => rfl

theorem calculate_krd_snd (price : Pricer) (bump : ℚ) (q : Quotes) :
    (calculate_krd price bump q).2 = q :=
  calculate_krd_loop_snd price bump krdTenors q

/-! Claim theorems -/

/-- C1.  For every pricer behaviour (any instrument, any inner pricing
results including raised exceptions) and every pre-call quote vector,
RiskCalculator.calculate leaves the quote vector exactly equal to its
pre-call state: the `finally` blocks of _calculate_dv01 and
_calculate_krd restore every bumped quote on every exit path. -/
theorem c1_calculate_restores_quotes (price : Pricer) (bump : ℚ)
    (q : Quotes) : (calculate price bump q).2 = q := by
  rw [calculate]
  cases price q with
  | error e => rfl
  | ok baseNpv =>
    simp only [calculate_dv01_snd]
    cases (calculate_dv01 price bump q).1 with
    | error e => rfl
    | ok dv01 =>
      simp only [calculate_krd_snd]
      cases (calculate_krd price bump q).1 with
      | error e => rfl
      | ok krd => rfl

theorem calculate_dv01_eq (price : Pricer) (bump : ℚ) (q : Quotes) (u d : ℚ)
    (hu : price (fun t => q t + bump) = Except.ok u)
    (hd : price (fun t => q t - bump) = Except.ok d) :
    (calculate_dv01 price bump q).1 = Except.ok ((d - u) / 2) := by
  simp only [calculate_dv01, setEach_all]
  rw [hu, hd]

/-- C3.  Whenever `calculate` returns metrics, the dv01 it reports is
(npv_down - npv_up) / 2, where npv_up prices with every recognized
tenor quote at its original value plus the bump and npv_down with
every recognized tenor quote at its original value minus the bump; the
bump size defaults to 0.0001 (1 bp). -/
theorem c3_dv01_central_difference :
    (∀ (price : Pricer) (bump : ℚ) (q : Quotes) (m : RiskMetricsM) (u d : ℚ),
        (calculate price bump q).1 = Except.ok m →
        price (fun t => q t + bump) = Except.ok u →
        price (fun t => q t - bump) = Except.ok d →
        m.dv01 = (d - u) / 2) ∧
    bump_size_default = 1 / 10000 := by
  constructor
  · intro price bump q m u d hm hu hd
    rw [calculate] at hm
    rcases hp : price q with e | baseNpv
    · rw [hp] at hm
      simp at hm
    · rw [hp] at hm
      simp only at hm
      rw [calculate_dv01_eq price bump q u d hu hd] at hm
      simp only at hm
      rcases hk : (calculate_krd price bump (calculate_dv01 price bump q).2).1
        with e | krd
      · rw [hk] at hm
        simp at hm
      · rw [hk] at hm
        simp only at hm
        cases hm
        rfl
  · rfl

/-- C3 witness: the theorem applied to a concrete everywhere-succeeding
linear pricer on a flat 4 percent quote vector at the default bump. -/
theorem c3_witness :
    (calculate c3wPrice bump_size_default c3wQuotes).1 = Except.ok c3wMetrics ∧
    c3wPrice (fun t => c3wQuotes t + bump_size_default) = Except.ok 4017 ∧
    c3wPrice (fun t => c3wQuotes t - bump_size_default) = Except.ok 3997 ∧
    c3wMetrics.dv01 = (3997 - 4017) / 2 := by
  have h1 : (calculate c3wPrice bump_size_default c3wQuotes).1 = Except.ok c3wMetrics := by
    simp +decide only [calculate, calculate_dv01, calculate_krd, calculate_krd_loop,
      krd_step, setEach_all, c3wPrice, c3wQuotes, bump_size_default, krdTenors,
      setQuote, c3wMetrics]
    norm_num
  have h2 : c3wPrice (fun t => c3wQuotes t + bump_size_default) = Except.ok 4017 := by
    simp only [c3wPrice, c3wQuotes, bump_size_default]
    norm_num
  have h3 : c3wPrice (fun t => c3wQuotes t - bump_size_default) = Except.ok 3997 := by
    simp only [c3wPrice, c3wQuotes, bump_size_default]
    norm_num
  exact ⟨h1, h2, h3,
    c3_dv01_central_difference.1 c3wPrice bump_size_default c3wQuotes c3wMetrics
      4017 3997 h1 h2 h3⟩

/-- C4 counterexample: on the rates map with a non-numeric 2Y entry
followed by a numeric 5Y entry, update_rates raises instead of
skipping — the 5Y quote keeps its initial value 0, whereas under the
claimed skip semantics (update_rates_spec) the 5Y quote would be set
to the numeric value with only the 2Y entry passed over. -/
theorem c4_counterexample :
    (update_rates initBuilder c4wRates ("2026-01-28")).2 = true ∧
    (update_rates initBuilder c4wRates ("2026-01-28")).1.quotes Tenor.t5Y = 0 ∧
    (update_rates_spec initBuilder c4wRates ("2026-01-28")).quotes Tenor.t5Y = 42 ∧
    (update_rates_spec initBuilder c4wRates ("2026-01-28")).quotes Tenor.t2Y = 0 := by
  refine ⟨by decide, by decide, by decide, by decide⟩

theorem apply_rates_append (q : Quotes) (pre l : RatesList)
    (hp : (apply_rates q pre).2 = false) :
    apply_rates q (pre ++ l) = apply_rates (apply_rates q pre).1 l := by
  induction pre generalizing q with
  | nil => rfl
  | cons kv rest ih =>
    rcases kv with ⟨k, v⟩
    rcases ht : tenorOfString k with _ | t
    · simp only [List.cons_append, apply_rates, ht] at *
      exact ih q hp
    · cases v with
      | num x =>
        simp only [List.cons_append, apply_rates, ht] at *
        exact ih (setQuote q t x) hp
      | str s =>
        simp only [apply_rates, ht] at hp
        exact Bool.noConfusion hp
      | null =>
        simp only [apply_rates, ht] at hp
        exact Bool.noConfusion hp

/-- C4 as amended.  First part (unchanged from the claim): entries of
the rates map whose tenor is not recognized are ignored — the update
loop behaves exactly as if the rates map had been filtered down to its
recognized-tenor entries, so such entries change no quote.  Second
part (amended): an entry whose rate value is non-numeric is not merely
skipped — setValue raises a TypeError that propagates out of
update_rates; the entries before it (in map order) have been applied,
the failing tenor keeps its previous quote, every later entry is left
unapplied, and neither the evaluation date nor the curve is touched. -/
theorem c4_amended_update_rates :
    (∀ (q : Quotes) (rates : RatesList),
        apply_rates q rates =
          apply_rates q (rates.filter (fun p => (tenorOfString p.1).isSome))) ∧
    (∀ (st : BuilderState) (pre : RatesList) (k : String) (v : JsonVal)
        (rest : RatesList) (d : String) (t : Tenor),
        tenorOfString k = some t → v.isNum = false →
        (apply_rates st.quotes pre).2 = false →
        update_rates st (pre ++ (k, v) :: rest) d =
          ({ st with quotes := (apply_rates st.quotes pre).1 }, true)) := by
  constructor
  · intro q rates
    induction rates generalizing q with
    | nil => rfl
    | cons kv rest ih =>
      rcases kv with ⟨k, v⟩
      rcases ht : tenorOfString k with _ | t
      · simp only [apply_rates, ht, List.filter_cons, Option.isSome_none,
          Bool.false_eq_true, if_false]
        exact ih q
      · cases v with
        | num x =>
          simp only [apply_rates, ht, List.filter_cons, Option.isSome_some, if_true]
          exact ih (setQuote q t x)
        | str s =>
          simp only [apply_rates, ht, List.filter_cons, Option.isSome_some, if_true]
        | null =>
          simp only [apply_rates, ht, List.filter_cons, Option.isSome_some, if_true]
  · intro st pre k v rest d t hk hv hp
    have happ := apply_rates_append st.quotes pre ((k, v) :: rest) hp
    have hbad : apply_rates (apply_rates st.quotes pre).1 ((k, v) :: rest) =
        ((apply_rates st.quotes pre).1, true) := by
      cases v with
      | num x => simp [JsonVal.isNum] at hv
      | str s => simp only [apply_rates, hk]
      | null => simp only [apply_rates, hk]
    rw [update_rates, happ, hbad]
    simp

/-- C4 witness: the amended theorem applied to a clean prefix (one
unrecognized entry, one numeric entry), a non-numeric 5Y entry and a
trailing numeric entry. -/
theorem c4_witness :
    update_rates initBuilder (c4wPre ++ ("5Y", JsonVal.str ("oops")) :: c4wRest)
        ("2026-01-28") =
      ({ initBuilder with quotes := (apply_rates initBuilder.quotes c4wPre).1 }, true) :=
  c4_amended_update_rates.2 initBuilder c4wPre ("5Y") (JsonVal.str ("oops")) c4wRest
    ("2026-01-28") Tenor.t5Y (by decide) (by decide) (by decide)

/-- C5.  A message whose body fails JSON decoding is committed and
dropped: for any poll trace reaching it (no fatal bus error before
it), consumption records (no result, committed) for that message and
then continues with the remaining trace exactly as it would have
processed it on its own — no abort, no restart. -/
theorem c5_poison_pill_commit (proc : TickMsg → Nat) (pre rest : List PollItem)
    (hf : PollItem.fatal ∉ pre) :
    consume_run proc (pre ++ PollItem.message none :: rest) =
      consume_run proc pre ++ (none, true) :: consume_run proc rest := by
  induction pre with
  | nil => rfl
  | cons item tail ih =>
    have hf' : PollItem.fatal ∉ tail := fun h => hf (List.mem_cons_of_mem _ h)
    cases item with
    | quiet => simpa [consume_run] using ih hf'
    | partitionEnd => simpa [consume_run] using ih hf'
    | fatal => exact absurd (List.mem_cons_self _ _) hf
    | message body =>
      cases body with
      | none => simpa [consume_run] using ih hf'
      | some t => simpa [consume_run] using ih hf'

/-- C5 witness: the theorem applied to a concrete trace with an empty
poll and a good message before the poison pill and a good message
after it. -/
theorem c5_witness :
    consume_run (fun _ => 0) (c5wPre ++ PollItem.message none :: c5wRest) =
      consume_run (fun _ => 0) c5wPre ++
        (none, true) :: consume_run (fun _ => 0) c5wRest :=
  c5_poison_pill_commit (fun _ => 0) c5wPre c5wRest (by decide)

/-- C6 counterexample: on the very first tick, an empty rates map does
not leave the curve state untouched — the builder goes from unbuilt to
built (update_rates builds the curve from the initial all-zero quotes
because every tenor always has a quote). -/
theorem c6_counterexample :
    initBuilder.curveBuilt = false ∧
    (process_market_update c2wCalc [] c6wTick initBuilder initStore nowW).1.curveBuilt
      = true := by
  refine ⟨rfl, by decide⟩

/-- C6 as amended.  For every well-formed tick whose rates map is
empty: the quote vector is untouched; the curve is built afterwards
(an already-built curve stays built and, the quotes being unchanged,
unchanged; on a first tick the curve is newly built from the current
quotes, and the evaluation date is set either way); the tick does not
fail; and yield_curve:latest is still written with its timestamp field
set to the string of the tick timestamp. -/
theorem c6_amended_empty_rates (calcF : CalcOutcome) (portfolio : List String)
    (st : BuilderState) (store : Store) (ts now : Int) (d : String) :
    (process_market_update calcF portfolio ⟨ts, d, []⟩ st store now).1.quotes
        = st.quotes ∧
    (process_market_update calcF portfolio ⟨ts, d, []⟩ st store now).1.curveBuilt
        = true ∧
    (process_market_update calcF portfolio ⟨ts, d, []⟩ st store now).2.2.2 = false ∧
    (process_market_update calcF portfolio ⟨ts, d, []⟩ st store now).2.1.yieldCurveLatest
        ("timestamp") = some (toString ts) := by
  have hupd : update_rates st ([] : RatesList) d =
      ({ quotes := st.quotes, curveBuilt := true, curveDate := some d }, false) := rfl
  have hlatest : ∀ (l : List String) (s : Store),
      (l.foldl (fun s i => write_risk s i) s).yieldCurveLatest = s.yieldCurveLatest := by
    intro l
    induction l with
    | nil => intro s; rfl
    | cons i tl ih =>
      intro s
      rw [List.foldl_cons, ih, write_risk]
      split <;> rfl
  refine ⟨?_, ?_, ?_, ?_⟩
  · simp [process_market_update, hupd]
  · simp [process_market_update, hupd]
  · simp [process_market_update, hupd]
  · simp only [process_market_update, hupd]
    simp only [Bool.false_eq_true, if_false, hlatest]
    simp [write_yield_curve, hsetAll, hsetField]

/-- C2 (code defect exhibited).  A well-formed tick whose 2Y rate
value is a string — an input the bus contract admits and says must be
skipped — makes update_rates raise, so the tick-level processing
fails before any write; the exception is caught by the catch-all in
the main loop (main.py lines 199-201), the loop continues, the
consumer generator resumes past its yield and commits the offset
(kafka_consumer.py line 70).  So a failed tick is committed with no
write_risk call, while the consumer code itself is commented
"Commit after successful processing". -/
theorem c2_failed_tick_committed :
    (main_loop_step false c2wCalc ["bond-1"] c2wTick initBuilder initStore nowW).tickFailed
        = true ∧
    (main_loop_step false c2wCalc ["bond-1"] c2wTick initBuilder initStore nowW).committed
        = true ∧
    (main_loop_step false c2wCalc ["bond-1"] c2wTick initBuilder initStore nowW).writeRiskCalls
        = [] := by
  refine ⟨by decide, by decide, by decide⟩

/-- C7 counterexample: for the swap traded Friday 30 January 2026
(serial 46052) with no effective date, the pricer uses serial 46054 —
Sunday 1 February 2026, two calendar days later and a weekend day —
while trade plus 2 business days is serial 46056, Tuesday 3 February
2026. -/
theorem c7_counterexample :
    swap_effective_date c7wSwap = 46054 ∧
    isWeekend 46054 = true ∧
    swap_effective_date_spec c7wSwap = 46056 ∧
    swap_effective_date c7wSwap ≠ swap_effective_date_spec c7wSwap := by
  refine ⟨by decide, by decide, by decide, by decide⟩

/-- C7 as amended.  For every swap whose effective_date is absent, the
swap pricer uses an effective date equal to the trade date plus 2
calendar days (QuantLib serial addition), not 2 business days. -/
theorem c7_amended_effective_default (s : SwapDataM)
    (h : s.effective_date = none) :
    swap_effective_date s = s.trade_date + 2 := by
  rw [swap_effective_date, h]

/-- C7 witness: the amended theorem applied to the concrete swap with
no effective date. -/
theorem c7_witness : swap_effective_date c7wSwap = c7wSwap.trade_date + 2 :=
  c7_amended_effective_default c7wSwap rfl

/-- C8.  When the portfolio loader returns zero instruments, the
worker exits with exit code 1 — sys.exit(1) raises SystemExit, which
the surrounding `except Exception` does not catch — before the Kafka
consumer is ever constructed or subscribed, whatever the Redis
connection would have done. -/
theorem c8_empty_portfolio_exits (redisOk : Bool) :
    main_init (Except.ok []) redisOk = InitResult.exited 1 false := rfl

/-- C9.  parse_frequency maps every string outside its four keys to
Semiannual and parse_day_count maps every string outside its four keys
to ACT/ACT Bond basis; hence a bond carrying an unrecognized payment
frequency or day-count convention is priced with those defaults (the
bond pricer feeds the stored strings straight into the two parsers)
rather than rejected. -/
theorem c9_unrecognized_defaults :
    (∀ s : String, s ≠ "ANNUAL" → s ≠ "SEMI_ANNUAL" → s ≠ "QUARTERLY" →
        s ≠ "MONTHLY" → parse_frequency s = Frequency.semiannual) ∧
    (∀ s : String, s ≠ "ACT_ACT" → s ≠ "ACT_360" → s ≠ "ACT_365" →
        s ≠ "30_360" → parse_day_count s = DayCount.actActBond) ∧
    (∀ b : BondDataM, b.payment_frequency ≠ "ANNUAL" →
        b.payment_frequency ≠ "SEMI_ANNUAL" → b.payment_frequency ≠ "QUARTERLY" →
        b.payment_frequency ≠ "MONTHLY" →
        bond_pricer_frequency b = Frequency.semiannual) ∧
    (∀ b : BondDataM, b.day_count_convention ≠ "ACT_ACT" →
        b.day_count_convention ≠ "ACT_360" → b.day_count_convention ≠ "ACT_365" →
        b.day_count_convention ≠ "30_360" →
        bond_pricer_day_count b = DayCount.actActBond) := by
  have hf : ∀ s : String, s ≠ "ANNUAL" → s ≠ "SEMI_ANNUAL" → s ≠ "QUARTERLY" →
      s ≠ "MONTHLY" → parse_frequency s = Frequency.semiannual := by
    intro s h1 h2 h3 h4
    rw [parse_frequency, if_neg h1, if_neg h2, if_neg h3, if_neg h4]
  have hd : ∀ s : String, s ≠ "ACT_ACT" → s ≠ "ACT_360" → s ≠ "ACT_365" →
      s ≠ "30_360" → parse_day_count s = DayCount.actActBond := by
    intro s h1 h2 h3 h4
    rw [parse_day_count, if_neg h1, if_neg h2, if_neg h3, if_neg h4]
  exact ⟨hf, hd,
    fun b h1 h2 h3 h4 => hf b.payment_frequency h1 h2 h3 h4,
    fun b h1 h2 h3 h4 => hd b.day_count_convention h1 h2 h3 h4⟩

/-- C9 witness: the theorem applied to the unrecognized strings WEEKLY
and 30E_360 and to a bond carrying them. -/
theorem c9_witness :
    parse_frequency ("WEEKLY") = Frequency.semiannual ∧
    parse_day_count ("30E_360") = DayCount.actActBond ∧
    bond_pricer_frequency c9wBond = Frequency.semiannual ∧
    bond_pricer_day_count c9wBond = DayCount.actActBond :=
  ⟨c9_unrecognized_defaults.1 ("WEEKLY") (by decide) (by decide) (by decide) (by decide),
   c9_unrecognized_defaults.2.1 ("30E_360") (by decide) (by decide) (by decide) (by decide),
   c9_unrecognized_defaults.2.2.1 c9wBond (by decide) (by decide) (by decide) (by decide),
   c9_unrecognized_defaults.2.2.2 c9wBond (by decide) (by decide) (by decide) (by decide)⟩

/-- C10.  In aggregate_portfolio the record loop accumulates npv, then
dv01, then the krd fields, and a parse failure on a later field skips
only the rest of that record: a record whose npv parses but whose dv01
does not still adds its npv to total_npv and nothing to total_dv01; a
record failing first at krd_2y keeps both its npv and dv01
contributions; and aggregate_portfolio is exactly the fold of this
record processing over the scanned records. -/
theorem c10_aggregate_non_atomic :
    (∀ (agg : Aggregates) (data : Record) (n : ℚ),
        lookupField data ("npv") = some (RVal.num n) →
        lookupField data ("dv01") = some RVal.bad →
        process_record agg data = { agg with total_npv := agg.total_npv + n }) ∧
    (∀ (agg : Aggregates) (data : Record) (n dv : ℚ),
        lookupField data ("npv") = some (RVal.num n) →
        lookupField data ("dv01") = some (RVal.num dv) →
        lookupField data ("krd_2y") = some RVal.bad →
        process_record agg data =
          { agg with total_npv := agg.total_npv + n,
                     total_dv01 := agg.total_dv01 + dv }) ∧
    (∀ records : List (String × Record),
        aggregate_portfolio records =
          records.foldl (fun agg r => process_record agg r.2)
            (initAggregates records)) := by
  refine ⟨?_, ?_, fun _ => rfl⟩
  · intro agg data n hn hd
    rw [process_record, hn, hd]
    rfl
  · intro agg data n dv hn hd hk
    rw [process_record, hn, hd]
    have h2y : ("krd_" ++ "2y" : String) = "krd_2y" := by decide
    simp only [parseFieldOr0, add_krd_loop, h2y, hk]

/-- C10 witness: the first part of the theorem applied to a concrete
record with npv 5 and a non-numeric dv01. -/
theorem c10_witness :
    process_record c10wAgg c10wData =
      { c10wAgg with total_npv := c10wAgg.total_npv + 5 } :=
  c10_aggregate_non_atomic.1 c10wAgg c10wData 5 (by decide) (by decide)
